import Mathlib

/-!
Verification of the topology state machine header
(service/topology_state_machine.hh) and the CQL transport controller
(transport/controller.cc) of the scylladb repository.

Modelling conventions:
* C++ scoped enums with `uint16_t` underlying type become Lean inductive
  types; the implicit enumerator values (0, 1, 2, ...) are recovered by a
  `val` function following declaration order.
* `raft::server_id` (a UUID) is modelled as `Nat`; `dht::token`,
  `utils::UUID`, `cdc::generation_id_v2` and `session_id` likewise.
* `std::unordered_map` becomes an association list, `std::unordered_set`
  a `Finset Nat`, `sstring` a `String`, `std::optional` an `Option`.
* `int64_t` becomes `Int`; representability in the machine type is an
  explicit predicate, since none of the verified code does arithmetic
  on versions.
* Fallible C++ code (`throw`) becomes `Except String`.
-/

namespace TopologySM

/-- Per-node state (`enum class node_state : uint16_t`), in source
declaration order.  The source comments: `none` = the new node joined
group0 but has not bootstrapped yet; `rollback_to_normal` = the node
rolls back a failed decommission/remove operation. -/
inductive node_state : Type where
  | none
  | bootstrapping
  | decommissioning
  | removing
  | replacing
  | rebuilding
  | normal
  | left
  | rollback_to_normal
deriving DecidableEq, Repr, Fintype

/-- Underlying `uint16_t` value of each `node_state` enumerator: the
source gives no explicit values, so C++ assigns 0, 1, 2, ... in
declaration order. -/
def node_state.val : node_state → Nat
  | .none => 0
  | .bootstrapping => 1
  | .decommissioning => 2
  | .removing => 3
  | .replacing => 4
  | .rebuilding => 5
  | .normal => 6
  | .left => 7
  | .rollback_to_normal => 8

/-- All `node_state` enumerators in declaration order. -/
def node_state.all : List node_state :=
  [.none, .bootstrapping, .decommissioning, .removing, .replacing,
   .rebuilding, .normal, .left, .rollback_to_normal]

/-- Per-node topology request kind
(`enum class topology_request : uint16_t`), in source declaration order.
The source comment says the declaration order is the priority order used
when several requests are queued. -/
inductive topology_request : Type where
  | replace
  | join
  | remove
  | leave
  | rebuild
deriving DecidableEq, Repr, Fintype

/-- Underlying `uint16_t` value of each `topology_request` enumerator
(declaration order, starting at 0). -/
def topology_request.val : topology_request → Nat
  | .replace => 0
  | .join => 1
  | .remove => 2
  | .leave => 3
  | .rebuild => 4

/-- Cleanup status (`enum class cleanup_status : uint16_t`). -/
inductive cleanup_status : Type where
  | clean
  | needed
  | running
deriving DecidableEq, Repr, Fintype

/-- `struct join_param { uint32_t num_tokens; }`. -/
structure join_param : Type where
  num_tokens : Nat
deriving DecidableEq, Repr

/-- `struct rebuild_param { sstring source_dc; }`. -/
structure rebuild_param : Type where
  source_dc : String
deriving DecidableEq, Repr

/-- `struct removenode_param { std::unordered_set<raft::server_id> ignored_ids; }`. -/
structure removenode_param : Type where
  ignored_ids : Finset Nat
deriving DecidableEq

/-- `struct replace_param { raft::server_id replaced_id; std::unordered_set<raft::server_id> ignored_ids; }`. -/
structure replace_param : Type where
  replaced_id : Nat
  ignored_ids : Finset Nat
deriving DecidableEq

/-- `using request_param = std::variant<join_param, rebuild_param, removenode_param, replace_param>`:
a closed sum over the four parameter bundles. -/
inductive request_param : Type where
  | of_join (p : join_param)
  | of_rebuild (p : rebuild_param)
  | of_removenode (p : removenode_param)
  | of_replace (p : replace_param)
deriving DecidableEq

/-- Global topology request kind (`enum class global_topology_request : uint16_t`). -/
inductive global_topology_request : Type where
  | new_cdc_generation
  | cleanup
deriving DecidableEq, Repr, Fintype

/-- `struct ring_slice { std::unordered_set<dht::token> tokens; }`. -/
structure ring_slice : Type where
  tokens : Finset Nat
deriving DecidableEq

/-- `struct replica_state` (topology_state_machine.hh lines 86-97). -/
structure replica_state : Type where
  state : node_state
  datacenter : String
  rack : String
  release_version : String
  ring : Option ring_slice
  shard_count : Nat
  ignore_msb : Nat
  supported_features : List String
  cleanup : cleanup_status
  request_id : Nat

/-- The cluster transition state
(`enum class topology::transition_state : uint16_t`), in source
declaration order. -/
inductive transition_state : Type where
  | join_group0
  | commit_cdc_generation
  | tablet_draining
  | write_both_read_old
  | write_both_read_new
  | tablet_migration
  | left_token_ring
deriving DecidableEq, Repr, Fintype

/-- Underlying `uint16_t` value of each `transition_state` enumerator
(declaration order, starting at 0). -/
def transition_state.val : transition_state → Nat
  | .join_group0 => 0
  | .commit_cdc_generation => 1
  | .tablet_draining => 2
  | .write_both_read_old => 3
  | .write_both_read_new => 4
  | .tablet_migration => 5
  | .left_token_ring => 6

/-- All `transition_state` enumerators in declaration order. -/
def transition_state.all : List transition_state :=
  [.join_group0, .commit_cdc_generation, .tablet_draining,
   .write_both_read_old, .write_both_read_new, .tablet_migration,
   .left_token_ring]

/-- `static constexpr version_t initial_version = 1` (`version_t` is `int64_t`). -/
def initial_version : Int := 1

/-- `struct topology` (topology_state_machine.hh lines 110-192), with
the default member initializers of the source. -/
structure topology : Type where
  tstate : Option transition_state := Option.none
  version : Int := initial_version
  fence_version : Int := initial_version
  normal_nodes : List (Nat × replica_state) := []
  left_nodes : Finset Nat := ∅
  new_nodes : List (Nat × replica_state) := []
  transition_nodes : List (Nat × replica_state) := []
  requests : List (Nat × topology_request) := []
  req_param : List (Nat × request_param) := []
  global_request : Option global_topology_request := Option.none
  current_cdc_generation_id : Option Nat := Option.none
  new_cdc_generation_data_uuid : Option Nat := Option.none
  unpublished_cdc_generations : List Nat := []
  enabled_features : List String := []
  session : Nat := 0
  tablet_balancing_enabled : Bool := true

/-- A default-constructed `topology` value. -/
def topology.fresh : topology := {}

/-- The pending request of kind `k` found first in the (unordered)
request map, modelled as an association list from node id to request
kind. -/
def first_pending (reqs : List (Nat × topology_request)) (k : topology_request) :
    Option (Nat × topology_request) :=
  reqs.find? (fun r => r.2 == k)

/-- Try each request kind of `order` in turn and return the first
pending request of the first kind that has one. -/
def select_by : List topology_request → List (Nat × topology_request) →
    Option (Nat × topology_request)
  | [], _ => Option.none
  | k :: rest, reqs =>
    match first_pending reqs k with
    | Option.some r => Option.some r
    | Option.none => select_by rest reqs

/-- Modelled from the spec: the priority order the idle coordinator uses
to select the next pending per-node request (spec section 4.4: any
`replace` first, else `join`, else `remove`, else `leave`, else
`rebuild`).  The topology coordinator implementation is not under src/;
only the `topology_request` enumeration (whose declaration order the
source comment documents as the priority order) is. -/
def selection_order : List topology_request :=
  [.replace, .join, .remove, .leave, .rebuild]

/-- Modelled from the spec: the idle coordinator selection rule over the
pending per-node requests (spec section 4.4). -/
def select_request (reqs : List (Nat × topology_request)) :
    Option (Nat × topology_request) :=
  select_by selection_order reqs

/-- Modelled from the spec: the compatibility between a pending request
kind and its typed parameter bundle (spec section 3: `join` carries a
token count, `rebuild` a source datacenter, `remove` an ignored-nodes
set, `replace` the replaced node id plus an ignored-nodes set).  The
coordinator code that keeps `requests` and `req_param` in lock-step is
not under src/; the parameter bundles themselves are. -/
def req_param_matches : topology_request → request_param → Prop
  | topology_request.join, request_param.of_join _ => True
  | topology_request.rebuild, request_param.of_rebuild _ => True
  | topology_request.remove, request_param.of_removenode _ => True
  | topology_request.replace, request_param.of_replace _ => True
  | _, _ => False

/-- The node-directed coordinator command
(`enum class raft_topology_cmd::command : uint16_t`). -/
inductive raft_topology_cmd.command : Type where
  | barrier
  | barrier_and_drain
  | stream_ranges
  | wait_for_ip
deriving DecidableEq, Repr, Fintype

/-- All coordinator commands in declaration order. -/
def raft_topology_cmd.command.all : List raft_topology_cmd.command :=
  [.barrier, .barrier_and_drain, .stream_ranges, .wait_for_ip]

/-- `struct raft_topology_cmd { command cmd; }`. -/
structure raft_topology_cmd : Type where
  cmd : raft_topology_cmd.command

/-- Status of a coordinator command result
(`enum class raft_topology_cmd_result::command_status : uint16_t`). -/
inductive command_status : Type where
  | fail
  | success
deriving DecidableEq, Repr, Fintype

/-- `struct raft_topology_cmd_result`, whose `status` field has the
default member initializer `command_status::fail`. -/
structure raft_topology_cmd_result : Type where
  status : command_status := .fail
deriving DecidableEq, Repr

/-- A default-constructed `raft_topology_cmd_result`. -/
def raft_topology_cmd_result.fresh : raft_topology_cmd_result := {}

/-- Smallest value representable in the C++ type `int64_t`. -/
def int64_min : Int := -(2 ^ 63)

/-- Largest value representable in the C++ type `int64_t`. -/
def int64_max : Int := 2 ^ 63 - 1

/-- Representability in `topology::version_t`, which the source defines
by `using version_t = int64_t`: the signed 64-bit range. -/
def is_version_t (v : Int) : Prop := int64_min ≤ v ∧ v ≤ int64_max

instance (v : Int) : Decidable (is_version_t v) := by
  unfold is_version_t; infer_instance

/-- Representability as an unsigned 64-bit integer (the range the claim
under test ascribes to the fencing token). -/
def is_uint64 (v : Int) : Prop := 0 ≤ v ∧ v ≤ 2 ^ 64 - 1

instance (v : Int) : Decidable (is_uint64 v) := by
  unfold is_uint64; infer_instance

/-- `struct fencing_token { topology::version_t topology_version{0}; }`. -/
structure fencing_token : Type where
  topology_version : Int := 0
deriving DecidableEq, Repr

/-- A default-constructed `fencing_token`. -/
def fencing_token.fresh : fencing_token := {}

/-- `explicit operator bool()` of `fencing_token`: returns
`topology_version != 0`; per the source comment, `topology_version == 0`
means the caller is not aware of fencing or does not use it. -/
def fencing_token.engaged (t : fencing_token) : Bool :=
  t.topology_version != 0

end TopologySM

namespace CqlController

/-- The slice of `cql_transport::controller` state that the verified
lifecycle entry points read and write: the `_ops_sem` counter (the
constructor initializer list builds it as `_ops_sem(1)`) and whether the
`_server` pointer is engaged. -/
structure controller_state : Type where
  ops_sem : Nat := 1
  server : Bool := false
deriving DecidableEq, Repr

/-- A controller as built by `controller::controller`: `_ops_sem(1)`
and no server yet. -/
def controller_init : controller_state := {}

/-- `semaphore::try_wait` on the operations semaphore: succeeds and
decrements exactly when the count is positive. -/
def sem_try_wait (n : Nat) : Option Nat :=
  if 0 < n then Option.some (n - 1) else Option.none

/-- `semaphore::signal`, run by the `.finally` continuation of both
lifecycle entry points once the inner operation finishes. -/
def sem_signal (c : controller_state) : controller_state :=
  { c with ops_sem := c.ops_sem + 1 }

/-- `controller::start_server` up to its delegation into
`do_start_server`: when `_ops_sem.try_wait()` fails it throws the
retry-later error without starting anything; otherwise it proceeds
holding the semaphore. -/
def start_server_acquire (c : controller_state) : Except String controller_state :=
  match sem_try_wait c.ops_sem with
  | Option.none => Except.error "CQL server is stopping, try again later"
  | Option.some n => Except.ok { c with ops_sem := n }

/-- `controller::request_stop_server` up to its delegation into
`do_stop_server`: the dual fail-fast guard with the dual message. -/
def request_stop_server_acquire (c : controller_state) : Except String controller_state :=
  match sem_try_wait c.ops_sem with
  | Option.none => Except.error "CQL server is starting, try again later"
  | Option.some n => Except.ok { c with ops_sem := n }

/-- Observable events of the controller start/stop lifecycle. -/
inductive lifecycle_event : Type where
  | server_sharded_start
  | subscribe_ev
  | listen_ev (i : Nat)
  | gossip_rpc_ready (ready : Bool)
  | unsubscribe_ev
  | shutdown_ev
  | server_stop_ev
deriving DecidableEq, Repr

/-- `controller::set_cql_ready(b)`: publishes the single `RPC_READY`
bit as a local application state through the gossiper. -/
def set_cql_ready_events (ready : Bool) : List lifecycle_event :=
  [lifecycle_event.gossip_rpc_ready ready]

/-- Event trace of `controller::do_start_server` on its success path
with `n` listen configurations: an immediate no-op when `_server` is
already engaged; otherwise start the sharded server, subscribe it,
listen on every configuration (`parallel_for_each(configs, ...).get()`
completes before the next statement), and only then set the CQL-ready
bit. -/
def do_start_server_events (serverEngaged : Bool) (n : Nat) : List lifecycle_event :=
  if serverEngaged then []
  else
    [lifecycle_event.server_sharded_start, lifecycle_event.subscribe_ev] ++
      (List.range n).map lifecycle_event.listen_ev ++
      set_cql_ready_events true

/-- Event trace of `controller::do_stop_server`: an immediate no-op when
no server is engaged; otherwise first clear the CQL-ready bit, then
unsubscribe, then shut the listeners down on all shards, then stop the
server. -/
def do_stop_server_events (serverEngaged : Bool) : List lifecycle_event :=
  if serverEngaged then
    set_cql_ready_events false ++
      [lifecycle_event.unsubscribe_ev, lifecycle_event.shutdown_ev,
       lifecycle_event.server_stop_ev]
  else []

/-- Result of the C library call `::stat` on the maintenance socket
path: either the filesystem object was found (with its `S_ISSOCK` bit),
or the call failed with an `errno`. -/
inductive stat_result : Type where
  | found (is_sock : Bool)
  | errored (errno_v : Nat)
deriving DecidableEq, Repr

/-- Result of the C library call `::unlink` on the maintenance socket
path. -/
inductive unlink_result : Type where
  | removed
  | errored (errno_v : Nat)
deriving DecidableEq, Repr

/-- The POSIX `ENOENT` error number ("file does not exist"). -/
def ENOENT : Nat := 2

/-- Filesystem-visible actions of the maintenance-socket branch. -/
inductive maintenance_event : Type where
  | unlink_socket (path : String)
  | listen_unix (path : String)
deriving DecidableEq, Repr

/-- The maintenance socket path after the `workdir` substitution of
`do_start_server`: `maintenance_socket()` equal to the string `workdir`
resolves to `work_directory() + "/cql.m"`. -/
def resolve_maintenance_socket (work_directory socket_cfg : String) : String :=
  if socket_cfg = "workdir" then work_directory ++ "/cql.m" else socket_cfg

/-- The maintenance-socket branch of `controller::do_start_server`
(used when `_used_by_maintenance_socket` is set): reject a path longer
than 107 characters; reject a pre-existing filesystem object that is
not a unix-domain socket; reject a `stat` failure other than `ENOENT`;
unlink any pre-existing socket (rejecting an `unlink` failure other
than `ENOENT`); and only then listen on the unix-domain address. -/
def maintenance_socket_setup (work_directory socket_cfg : String)
    (st : stat_result) (ul : unlink_result) : Except String (List maintenance_event) :=
  let socket := resolve_maintenance_socket work_directory socket_cfg
  if socket.length > 107 then
    Except.error ("Maintenance socket path is too long: " ++ socket ++
      ". Change it to string shorter than 108 chars.")
  else
    let after_stat : Except String (List maintenance_event) :=
      match ul with
      | unlink_result.errored e =>
        if e ≠ ENOENT then Except.error ("Failed to unlink " ++ socket)
        else Except.ok [maintenance_event.unlink_socket socket,
                        maintenance_event.listen_unix socket]
      | unlink_result.removed =>
        Except.ok [maintenance_event.unlink_socket socket,
                   maintenance_event.listen_unix socket]
    match st with
    | stat_result.found is_sock =>
      if is_sock then after_stat
      else Except.error ("Under maintenance socket path (" ++ socket ++
        ") there is something else.")
    | stat_result.errored e =>
      if e ≠ ENOENT then Except.error ("Failed to stat " ++ socket)
      else after_stat

end CqlController

namespace TopologySM

/-- C3: the optional current transition state of the topology ranges over
exactly the seven values `join_group0`, `commit_cdc_generation`,
`tablet_draining`, `write_both_read_old`, `write_both_read_new`,
`tablet_migration`, `left_token_ring`, in declaration order (enumerator
values 0 through 6), and the `tstate` field of a topology is either
absent or one of them. -/
theorem C3_transition_state_enumeration :
    (∀ s : transition_state, s ∈ transition_state.all) ∧
    transition_state.all.Nodup ∧
    transition_state.all.length = 7 ∧
    transition_state.all =
      [.join_group0, .commit_cdc_generation, .tablet_draining,
       .write_both_read_old, .write_both_read_new, .tablet_migration,
       .left_token_ring] ∧
    (∀ s : transition_state, transition_state.all.indexOf s = s.val) ∧
    (∀ t : topology, t.tstate = Option.none ∨
      ∃ s : transition_state, t.tstate = Option.some s) := by
  refine ⟨by decide, by decide, by decide, rfl, by decide, ?_⟩
  intro t
  cases h : t.tstate with
  | none => exact Or.inl rfl
  | some s => exact Or.inr ⟨s, rfl⟩

/-- C4: the per-node state ranges over exactly the nine values `none`,
`bootstrapping`, `decommissioning`, `removing`, `replacing`,
`rebuilding`, `normal`, `left`, `rollback_to_normal`, in declaration
order (enumerator values 0 through 8).  The source comments give the
glosses the claim quotes: `none` = joined group0 (consensus) but holds
no data, `rollback_to_normal` = rolls back a failed decommission/remove. -/
theorem C4_node_state_enumeration :
    (∀ s : node_state, s ∈ node_state.all) ∧
    node_state.all.Nodup ∧
    node_state.all.length = 9 ∧
    node_state.all =
      [.none, .bootstrapping, .decommissioning, .removing, .replacing,
       .rebuilding, .normal, .left, .rollback_to_normal] ∧
    (∀ s : node_state, node_state.all.indexOf s = s.val) := by
  refine ⟨by decide, by decide, by decide, rfl, by decide⟩

/-- C8: a freshly constructed (default-initialized) `topology` has
`version = fence_version = initial_version = 1` (so the fencing
invariant `fence_version ≤ version` holds), no transition state, empty
node collections and request maps, no global request, and tablet
balancing enabled. -/
theorem C8_fresh_topology_initial_state :
    initial_version = 1 ∧
    topology.fresh.version = initial_version ∧
    topology.fresh.fence_version = initial_version ∧
    topology.fresh.fence_version ≤ topology.fresh.version ∧
    topology.fresh.tstate = Option.none ∧
    topology.fresh.normal_nodes = [] ∧
    topology.fresh.left_nodes = ∅ ∧
    topology.fresh.new_nodes = [] ∧
    topology.fresh.transition_nodes = [] ∧
    topology.fresh.requests = [] ∧
    topology.fresh.req_param = [] ∧
    topology.fresh.global_request = Option.none ∧
    topology.fresh.tablet_balancing_enabled = true := by
  refine ⟨rfl, rfl, rfl, le_refl _, rfl, rfl, rfl, rfl, rfl, rfl, rfl, rfl, rfl⟩

/-- C9: the result type of the coordinator-to-node commands (whose
command enumeration is exactly `barrier`, `barrier_and_drain`,
`stream_ranges`, `wait_for_ip`) has `status = fail` when
default-constructed, and the status ranges over exactly the two values
`fail` and `success`. -/
theorem C9_cmd_result_defaults_to_fail :
    raft_topology_cmd_result.fresh.status = command_status.fail ∧
    (∀ s : command_status, s = command_status.fail ∨ s = command_status.success) ∧
    command_status.fail ≠ command_status.success ∧
    (∀ c : raft_topology_cmd.command, c ∈ raft_topology_cmd.command.all) ∧
    raft_topology_cmd.command.all.Nodup ∧
    raft_topology_cmd.command.all.length = 4 := by
  refine ⟨rfl, by decide, by decide, by decide, by decide, rfl⟩

/-- C2 counterexample: the claim calls the fencing token an unsigned
64-bit `topology_version`, but the source defines
`using version_t = int64_t`: the value `-1` is representable in
`version_t` (and a `fencing_token` can carry it) while it is not an
unsigned 64-bit value; conversely `2^64 - 1` is unsigned-64
representable but not representable in `version_t`. -/
theorem C2_counterexample_version_t_is_signed :
    is_version_t (-1) ∧ ¬ is_uint64 (-1) ∧
    (fencing_token.mk (-1)).topology_version = -1 ∧
    is_uint64 (2 ^ 64 - 1) ∧ ¬ is_version_t (2 ^ 64 - 1) ∧
    ¬ (∀ v : Int, is_version_t v → is_uint64 v) := by
  refine ⟨by decide, by decide, rfl, by decide, by decide, ?_⟩
  intro h
  exact absurd (h (-1) (by decide)) (by decide)

/-- C2 (amended): the fencing token carried by every data-plane RPC is a
single signed 64-bit `topology_version`; the token is considered absent
(the caller opted out) if and only if its `topology_version` equals 0,
and a default-constructed `fencing_token` has `topology_version = 0`. -/
theorem C2_fencing_token_signed64_zero_optout :
    (∀ v : Int, is_version_t v ↔ -(2 ^ 63) ≤ v ∧ v ≤ 2 ^ 63 - 1) ∧
    is_version_t int64_min ∧ int64_min < 0 ∧ is_version_t int64_max ∧
    (∀ t : fencing_token, t.engaged = false ↔ t.topology_version = 0) ∧
    fencing_token.fresh.topology_version = 0 := by
  refine ⟨fun v => Iff.rfl, by decide, by decide, by decide, ?_, rfl⟩
  intro t
  simp [fencing_token.engaged]

theorem first_pending_of_mem {reqs : List (Nat × topology_request)}
    {k : topology_request} (h : ∃ r ∈ reqs, r.2 = k) :
    ∃ i, first_pending reqs k = Option.some (i, k) := by
  induction reqs with
  | nil => simp at h
  | cons a t ih =>
    obtain ⟨i, k2⟩ := a
    by_cases hk : k2 = k
    · subst hk
      exact ⟨i, by simp [first_pending, List.find?]⟩
    · have h2 : ∃ r ∈ t, r.2 = k := by
        rcases h with ⟨r, hr, hrk⟩
        rcases List.mem_cons.mp hr with rfl | hmem
        · exact absurd hrk hk
        · exact ⟨r, hmem, hrk⟩
      obtain ⟨j, hj⟩ := ih h2
      refine ⟨j, ?_⟩
      have hb : (k2 == k) = false := beq_eq_false_iff_ne.mpr hk
      simpa [first_pending, List.find?, hb] using hj

theorem first_pending_of_none {reqs : List (Nat × topology_request)}
    {k : topology_request} (h : ∀ r ∈ reqs, r.2 ≠ k) :
    first_pending reqs k = Option.none := by
  apply List.find?_eq_none.mpr
  intro x hx
  simp only [beq_iff_eq]
  exact h x hx

/-- C1: the priority order among pending per-node topology requests is
`replace`, then `join`, then `remove`, then `leave`, then `rebuild`: the
idle coordinator selection rule (modelled from the spec, since the
coordinator is not under src/) picks a pending `replace` before any
other kind, a `join` when no `replace` is pending, and so on; and this
priority order coincides with the declaration order of the
`topology_request` enumerators in the source (values 0 through 4). -/
theorem C1_request_priority_order :
    (∀ reqs, (∃ r ∈ reqs, r.2 = topology_request.replace) →
      ∃ i, select_request reqs = Option.some (i, topology_request.replace)) ∧
    (∀ reqs, (∀ r ∈ reqs, r.2 ≠ topology_request.replace) →
      (∃ r ∈ reqs, r.2 = topology_request.join) →
      ∃ i, select_request reqs = Option.some (i, topology_request.join)) ∧
    (∀ reqs, (∀ r ∈ reqs, r.2 ≠ topology_request.replace) →
      (∀ r ∈ reqs, r.2 ≠ topology_request.join) →
      (∃ r ∈ reqs, r.2 = topology_request.remove) →
      ∃ i, select_request reqs = Option.some (i, topology_request.remove)) ∧
    (∀ reqs, (∀ r ∈ reqs, r.2 ≠ topology_request.replace) →
      (∀ r ∈ reqs, r.2 ≠ topology_request.join) →
      (∀ r ∈ reqs, r.2 ≠ topology_request.remove) →
      (∃ r ∈ reqs, r.2 = topology_request.leave) →
      ∃ i, select_request reqs = Option.some (i, topology_request.leave)) ∧
    (∀ reqs, (∀ r ∈ reqs, r.2 ≠ topology_request.replace) →
      (∀ r ∈ reqs, r.2 ≠ topology_request.join) →
      (∀ r ∈ reqs, r.2 ≠ topology_request.remove) →
      (∀ r ∈ reqs, r.2 ≠ topology_request.leave) →
      (∃ r ∈ reqs, r.2 = topology_request.rebuild) →
      ∃ i, select_request reqs = Option.some (i, topology_request.rebuild)) ∧
    selection_order = [.replace, .join, .remove, .leave, .rebuild] ∧
    (∀ k : topology_request, selection_order.indexOf k = k.val) ∧
    (∀ k : topology_request, k ∈ selection_order) := by
  refine ⟨?_, ?_, ?_, ?_, ?_, rfl, by decide, by decide⟩
  · intro reqs h
    obtain ⟨i, hi⟩ := first_pending_of_mem h
    exact ⟨i, by simp [select_request, select_by, selection_order, hi]⟩
  · intro reqs h0 h
    have e0 := first_pending_of_none h0
    obtain ⟨i, hi⟩ := first_pending_of_mem h
    exact ⟨i, by simp [select_request, select_by, selection_order, e0, hi]⟩
  · intro reqs h0 h1 h
    have e0 := first_pending_of_none h0
    have e1 := first_pending_of_none h1
    obtain ⟨i, hi⟩ := first_pending_of_mem h
    exact ⟨i, by simp [select_request, select_by, selection_order, e0, e1, hi]⟩
  · intro reqs h0 h1 h2 h
    have e0 := first_pending_of_none h0
    have e1 := first_pending_of_none h1
    have e2 := first_pending_of_none h2
    obtain ⟨i, hi⟩ := first_pending_of_mem h
    exact ⟨i, by simp [select_request, select_by, selection_order, e0, e1, e2, hi]⟩
  · intro reqs h0 h1 h2 h3 h
    have e0 := first_pending_of_none h0
    have e1 := first_pending_of_none h1
    have e2 := first_pending_of_none h2
    have e3 := first_pending_of_none h3
    obtain ⟨i, hi⟩ := first_pending_of_mem h
    exact ⟨i, by simp [select_request, select_by, selection_order, e0, e1, e2, e3, hi]⟩

/-- C1 witness: the spec scenario `{join A=1, replace B=2, rebuild C=3,
leave D=4}`: a pending replace wins; with the replace gone the join
wins; then the leave; then the rebuild; a remove beats a rebuild. -/
theorem C1_request_priority_order_witness :
    (∃ i, select_request
        [(1, topology_request.join), (2, topology_request.replace),
         (3, topology_request.rebuild), (4, topology_request.leave)] =
      Option.some (i, topology_request.replace)) ∧
    (∃ i, select_request
        [(1, topology_request.join), (3, topology_request.rebuild),
         (4, topology_request.leave)] =
      Option.some (i, topology_request.join)) ∧
    (∃ i, select_request
        [(3, topology_request.rebuild), (4, topology_request.leave)] =
      Option.some (i, topology_request.leave)) ∧
    (∃ i, select_request [(3, topology_request.rebuild)] =
      Option.some (i, topology_request.rebuild)) ∧
    (∃ i, select_request
        [(5, topology_request.remove), (3, topology_request.rebuild)] =
      Option.some (i, topology_request.remove)) := by
  refine ⟨?_, ?_, ?_, ?_, ?_⟩
  · exact C1_request_priority_order.1 _ (by decide)
  · exact C1_request_priority_order.2.1 _ (by decide) (by decide)
  · exact C1_request_priority_order.2.2.2.1 _ (by decide) (by decide) (by decide)
      (by decide)
  · exact C1_request_priority_order.2.2.2.2.1 _ (by decide) (by decide) (by decide)
      (by decide) (by decide)
  · exact C1_request_priority_order.2.2.1 _ (by decide) (by decide) (by decide)

/-- C5: `request_param` is a closed sum over exactly the four variants
`join_param` (exactly a token count), `rebuild_param` (exactly a source
datacenter), `removenode_param` (exactly an ignored-nodes set) and
`replace_param` (exactly the replaced node id plus an ignored-nodes
set); each parameter bundle is determined by those fields, and the
(spec-modelled) kind/parameter compatibility relation pairs each request
kind with exactly its own variant, `leave` having none. -/
theorem C5_request_param_closed_sum :
    (∀ p : request_param,
      (∃ jp, p = request_param.of_join jp) ∨
      (∃ rp, p = request_param.of_rebuild rp) ∨
      (∃ np, p = request_param.of_removenode np) ∨
      (∃ sp, p = request_param.of_replace sp)) ∧
    (∀ a b : join_param, a.num_tokens = b.num_tokens → a = b) ∧
    (∀ a b : rebuild_param, a.source_dc = b.source_dc → a = b) ∧
    (∀ a b : removenode_param, a.ignored_ids = b.ignored_ids → a = b) ∧
    (∀ a b : replace_param,
      a.replaced_id = b.replaced_id → a.ignored_ids = b.ignored_ids → a = b) ∧
    (∀ p, req_param_matches topology_request.join p ↔
      ∃ jp, p = request_param.of_join jp) ∧
    (∀ p, req_param_matches topology_request.rebuild p ↔
      ∃ rp, p = request_param.of_rebuild rp) ∧
    (∀ p, req_param_matches topology_request.remove p ↔
      ∃ np, p = request_param.of_removenode np) ∧
    (∀ p, req_param_matches topology_request.replace p ↔
      ∃ sp, p = request_param.of_replace sp) ∧
    (∀ p, ¬ req_param_matches topology_request.leave p) := by
  refine ⟨?_, ?_, ?_, ?_, ?_, ?_, ?_, ?_, ?_, ?_⟩
  · intro p
    cases p with
    | of_join jp => exact Or.inl ⟨jp, rfl⟩
    | of_rebuild rp => exact Or.inr (Or.inl ⟨rp, rfl⟩)
    | of_removenode np => exact Or.inr (Or.inr (Or.inl ⟨np, rfl⟩))
    | of_replace sp => exact Or.inr (Or.inr (Or.inr ⟨sp, rfl⟩))
  · intro a b h
    cases a; cases b; cases h; rfl
  · intro a b h
    cases a; cases b; cases h; rfl
  · intro a b h
    cases a; cases b; cases h; rfl
  · intro a b h1 h2
    cases a; cases b; cases h1; cases h2; rfl
  · intro p
    cases p <;> simp [req_param_matches]
  · intro p
    cases p <;> simp [req_param_matches]
  · intro p
    cases p <;> simp [req_param_matches]
  · intro p
    cases p <;> simp [req_param_matches]
  · intro p
    cases p <;> simp [req_param_matches]

/-- C5 witness: concrete instances of the bundle-determination and
compatibility parts of the claim. -/
theorem C5_request_param_closed_sum_witness :
    join_param.mk 16 = join_param.mk 16 ∧
    (∃ jp, request_param.of_join (join_param.mk 16) = request_param.of_join jp) ∧
    ¬ req_param_matches topology_request.leave
        (request_param.of_join (join_param.mk 16)) := by
  refine ⟨?_, ?_, ?_⟩
  · exact C5_request_param_closed_sum.2.1 (join_param.mk 16) (join_param.mk 16) rfl
  · exact (C5_request_param_closed_sum.2.2.2.2.2.1
      (request_param.of_join (join_param.mk 16))).mp (by simp [req_param_matches])
  · exact C5_request_param_closed_sum.2.2.2.2.2.2.2.2.2
      (request_param.of_join (join_param.mk 16))

end TopologySM

namespace CqlController

/-- C6: the controller constructor builds the operations semaphore with
count 1, and the start/stop lifecycle fails fast instead of
interleaving: with the semaphore held by a stop in progress (a
successful `request_stop_server` acquisition), `start_server` throws
the retry-later error without starting anything, and with the semaphore
held by a start in progress, `request_stop_server` throws its
retry-later error without stopping anything (the model returns the
error before ever delegating into `do_start_server`/`do_stop_server`). -/
theorem C6_ops_semaphore_fail_fast :
    controller_init.ops_sem = 1 ∧
    (∀ c c2 : controller_state, c.ops_sem ≤ 1 →
      request_stop_server_acquire c = Except.ok c2 →
      start_server_acquire c2 =
        Except.error "CQL server is stopping, try again later") ∧
    (∀ c c2 : controller_state, c.ops_sem ≤ 1 →
      start_server_acquire c = Except.ok c2 →
      request_stop_server_acquire c2 =
        Except.error "CQL server is starting, try again later") := by
  refine ⟨rfl, ?_, ?_⟩
  · intro c c2 h hok
    unfold request_stop_server_acquire sem_try_wait at hok
    by_cases hpos : 0 < c.ops_sem
    · simp only [if_pos hpos, Except.ok.injEq] at hok
      subst hok
      have h0 : c.ops_sem - 1 = 0 := by omega
      simp [start_server_acquire, sem_try_wait, h0]
    · simp only [if_neg hpos] at hok
      cases hok
  · intro c c2 h hok
    unfold start_server_acquire sem_try_wait at hok
    by_cases hpos : 0 < c.ops_sem
    · simp only [if_pos hpos, Except.ok.injEq] at hok
      subst hok
      have h0 : c.ops_sem - 1 = 0 := by omega
      simp [request_stop_server_acquire, sem_try_wait, h0]
    · simp only [if_neg hpos] at hok
      cases hok

/-- C6 witness: from a freshly constructed controller, a stop in
progress makes `start_server` throw, and a start in progress makes
`request_stop_server` throw. -/
theorem C6_ops_semaphore_fail_fast_witness :
    start_server_acquire { ops_sem := 0, server := false } =
      Except.error "CQL server is stopping, try again later" ∧
    request_stop_server_acquire { ops_sem := 0, server := false } =
      Except.error "CQL server is starting, try again later" := by
  refine ⟨?_, ?_⟩
  · exact C6_ops_semaphore_fail_fast.2.1 controller_init
      { ops_sem := 0, server := false } (by decide) rfl
  · exact C6_ops_semaphore_fail_fast.2.2 controller_init
      { ops_sem := 0, server := false } (by decide) rfl

/-- C7: the readiness bit is published through gossip as the single
`RPC_READY` application-state value, and its ordering brackets serving:
in the start trace the CQL-ready bit is set to true as the last event,
after every listener has been started, and in the stop trace the bit is
cleared as the very first event, before the server shutdown and before
the server stop. -/
theorem C7_cql_ready_brackets_serving :
    (∀ n : Nat, ∃ pre,
      do_start_server_events false n =
        pre ++ [lifecycle_event.gossip_rpc_ready true] ∧
      (∀ i, i < n → lifecycle_event.listen_ev i ∈ pre) ∧
      lifecycle_event.gossip_rpc_ready true ∉ pre) ∧
    (∃ post,
      do_stop_server_events true =
        lifecycle_event.gossip_rpc_ready false :: post ∧
      lifecycle_event.shutdown_ev ∈ post ∧
      lifecycle_event.server_stop_ev ∈ post ∧
      lifecycle_event.gossip_rpc_ready false ∉ post) ∧
    set_cql_ready_events true = [lifecycle_event.gossip_rpc_ready true] ∧
    set_cql_ready_events false = [lifecycle_event.gossip_rpc_ready false] := by
  refine ⟨?_, ?_, rfl, rfl⟩
  · intro n
    refine ⟨[lifecycle_event.server_sharded_start, lifecycle_event.subscribe_ev] ++
      (List.range n).map lifecycle_event.listen_ev, ?_, ?_, ?_⟩
    · simp [do_start_server_events, set_cql_ready_events]
    · intro i hi
      exact List.mem_append_right _
        (List.mem_map_of_mem lifecycle_event.listen_ev (List.mem_range.mpr hi))
    · simp
  · refine ⟨[lifecycle_event.unsubscribe_ev, lifecycle_event.shutdown_ev,
      lifecycle_event.server_stop_ev], rfl, by decide, by decide, by decide⟩

/-- C7 witness: the concrete traces with two listen configurations. -/
theorem C7_cql_ready_brackets_serving_witness :
    (∃ pre,
      do_start_server_events false 2 =
        pre ++ [lifecycle_event.gossip_rpc_ready true] ∧
      (∀ i, i < 2 → lifecycle_event.listen_ev i ∈ pre) ∧
      lifecycle_event.gossip_rpc_ready true ∉ pre) ∧
    (∃ post,
      do_stop_server_events true =
        lifecycle_event.gossip_rpc_ready false :: post ∧
      lifecycle_event.shutdown_ev ∈ post ∧
      lifecycle_event.server_stop_ev ∈ post ∧
      lifecycle_event.gossip_rpc_ready false ∉ post) :=
  ⟨C7_cql_ready_brackets_serving.1 2, C7_cql_ready_brackets_serving.2.1⟩

/-- C10: with the controller configured to serve over a maintenance
socket, `do_start_server` throws (starting nothing) when the resolved
socket path exceeds 107 characters, when a filesystem object exists at
the path that is not a unix-domain socket, or when a pre-existing file
at the path cannot be unlinked; otherwise it unlinks any pre-existing
socket file before listening on the unix-domain address. -/
theorem C10_maintenance_socket_guard :
    ∀ (wd scfg : String) (st : stat_result) (ul : unlink_result),
      ((resolve_maintenance_socket wd scfg).length > 107 →
        ∃ m, maintenance_socket_setup wd scfg st ul = Except.error m) ∧
      (st = stat_result.found false →
        ∃ m, maintenance_socket_setup wd scfg st ul = Except.error m) ∧
      (∀ e, ul = unlink_result.errored e → e ≠ ENOENT →
        ∃ m, maintenance_socket_setup wd scfg st ul = Except.error m) ∧
      ((resolve_maintenance_socket wd scfg).length ≤ 107 →
        (st = stat_result.found true ∨ st = stat_result.errored ENOENT) →
        (ul = unlink_result.removed ∨ ul = unlink_result.errored ENOENT) →
        maintenance_socket_setup wd scfg st ul =
          Except.ok
            [maintenance_event.unlink_socket (resolve_maintenance_socket wd scfg),
             maintenance_event.listen_unix (resolve_maintenance_socket wd scfg)]) := by
  intro wd scfg st ul
  refine ⟨?_, ?_, ?_, ?_⟩
  · intro hlen
    simp [maintenance_socket_setup, hlen]
  · intro hst
    subst hst
    by_cases hlen : (resolve_maintenance_socket wd scfg).length > 107
    · simp [maintenance_socket_setup, hlen]
    · simp [maintenance_socket_setup, hlen]
  · intro e hul he
    subst hul
    by_cases hlen : (resolve_maintenance_socket wd scfg).length > 107
    · simp [maintenance_socket_setup, hlen]
    · cases st with
      | found is_sock =>
        cases is_sock with
        | false => simp [maintenance_socket_setup, hlen]
        | true => simp [maintenance_socket_setup, hlen, he]
      | errored e2 =>
        by_cases he2 : e2 = ENOENT
        · simp [maintenance_socket_setup, hlen, he2, he]
        · simp [maintenance_socket_setup, hlen, he2]
  · intro hlen hst hul
    have hlen2 : ¬ (resolve_maintenance_socket wd scfg).length > 107 := by omega
    rcases hst with rfl | rfl <;> rcases hul with rfl | rfl <;>
      simp [maintenance_socket_setup, hlen2, ENOENT]

/-- C10 witness: a 108-character path is rejected; a well-formed
`workdir` configuration stats, unlinks and then listens. -/
theorem C10_maintenance_socket_guard_witness :
    (∃ m, maintenance_socket_setup "w" (String.mk (List.replicate 108 'a'))
        (stat_result.errored ENOENT) unlink_result.removed = Except.error m) ∧
    maintenance_socket_setup "w" "workdir" (stat_result.found true)
        unlink_result.removed =
      Except.ok
        [maintenance_event.unlink_socket (resolve_maintenance_socket "w" "workdir"),
         maintenance_event.listen_unix (resolve_maintenance_socket "w" "workdir")] := by
  refine ⟨?_, ?_⟩
  · exact (C10_maintenance_socket_guard "w" (String.mk (List.replicate 108 'a'))
      (stat_result.errored ENOENT) unlink_result.removed).1 (by decide)
  · exact (C10_maintenance_socket_guard "w" "workdir" (stat_result.found true)
      unlink_result.removed).2.2.2 (by decide) (Or.inl rfl) (Or.inl rfl)

end CqlController
